import Mathlib

/-!
Verification development for the self-hosted KYC verification platform.

The definitions below shallowly embed the verification decision pipeline of
the repository: the decision table of
app/services/verification_service.py (VerificationService._aggregate_results),
the face comparison of app/services/face_service.py (FaceService.compare_faces),
the passive liveness heuristics of app/services/liveness_service.py, and the
document classification and validation of app/services/document_service.py.
Python float arithmetic is modelled with exact rationals where only field
arithmetic and comparisons occur, and with real numbers where a square root
is taken. Python dicts of extracted fields are modelled as association lists.
Fallible steps are modelled with an explicit fault alternative.
-/

namespace KYC

/-- Injected configuration thresholds: settings.FACE_MODEL_THRESHOLD
(default 0.6) and settings.LIVENESS_CONFIDENCE_THRESHOLD (default 0.9). -/
structure Thresholds where
  faceMatch : ℚ
  livenessConfidence : ℚ

/-- The key metrics extracted at the start of
VerificationService._aggregate_results (lines 224-230): the .get calls on the
three component results, with their code defaults when a key is missing. -/
structure AggregateInput where
  doc_valid : Bool
  doc_confidence : ℚ
  face_detected : Bool
  face_match_score : ℚ
  face_confidence : ℚ
  liveness_passed : Bool
  liveness_score : ℚ

/-- A decision outcome: the pair of the decision label and its reason string. -/
structure Decision where
  decision : String
  reason : String
deriving DecidableEq, Repr

/-- The decision chain of VerificationService._aggregate_results
(verification_service.py lines 236-254), an ordered if/elif/else ladder. -/
def aggregate_decision (t : Thresholds) (i : AggregateInput) : Decision :=
  if i.doc_valid = false then
    ⟨"rejected", "Invalid document"⟩
  else if i.face_detected = false then
    ⟨"rejected", "No face detected"⟩
  else if i.liveness_passed = false then
    ⟨"rejected", "Liveness detection failed"⟩
  else if i.face_match_score < t.faceMatch then
    ⟨"rejected", "Face match insufficient"⟩
  else if 0.8 ≤ i.face_match_score ∧ t.livenessConfidence ≤ i.liveness_score ∧
      0.7 ≤ i.doc_confidence then
    ⟨"verified", "All checks passed"⟩
  else
    ⟨"manual_review", "Requires manual review"⟩

/-- The guard of the j-th branch of the decision ladder, with the precedence
of the ladder made explicit: branch j can only fire when every earlier guard
failed (first matching branch wins). -/
def branch_conds (t : Thresholds) (i : AggregateInput) : Fin 6 → Prop
  | 0 => i.doc_valid = false
  | 1 => i.doc_valid = true ∧ i.face_detected = false
  | 2 => i.doc_valid = true ∧ i.face_detected = true ∧ i.liveness_passed = false
  | 3 => i.doc_valid = true ∧ i.face_detected = true ∧ i.liveness_passed = true ∧
      i.face_match_score < t.faceMatch
  | 4 => i.doc_valid = true ∧ i.face_detected = true ∧ i.liveness_passed = true ∧
      ¬ i.face_match_score < t.faceMatch ∧
      (0.8 ≤ i.face_match_score ∧ t.livenessConfidence ≤ i.liveness_score ∧
        0.7 ≤ i.doc_confidence)
  | 5 => i.doc_valid = true ∧ i.face_detected = true ∧ i.liveness_passed = true ∧
      ¬ i.face_match_score < t.faceMatch ∧
      ¬ (0.8 ≤ i.face_match_score ∧ t.livenessConfidence ≤ i.liveness_score ∧
        0.7 ≤ i.doc_confidence)

/-- The outcome of the j-th branch of the decision ladder. -/
def branch_outcome : Fin 6 → Decision
  | 0 => ⟨"rejected", "Invalid document"⟩
  | 1 => ⟨"rejected", "No face detected"⟩
  | 2 => ⟨"rejected", "Liveness detection failed"⟩
  | 3 => ⟨"rejected", "Face match insufficient"⟩
  | 4 => ⟨"verified", "All checks passed"⟩
  | 5 => ⟨"manual_review", "Requires manual review"⟩

/-- C1: for every input combination and all thresholds, exactly one of the six
prioritized branch guards of the decision ladder holds (the table is total and
mutually exclusive), and the decision function returns the outcome of the
branch whose guard holds: first matching branch wins, in the fixed order
document, face detected, liveness, face match, verified fast path,
manual review. -/
theorem aggregate_decision_table (t : Thresholds) (i : AggregateInput) :
    (∃! j : Fin 6, branch_conds t i j) ∧
    (∀ j : Fin 6, branch_conds t i j → aggregate_decision t i = branch_outcome j) := by
  obtain ⟨dv, dc, fd, fs, fc, lp, ls⟩ := i
  cases dv with
  | false =>
    refine ⟨⟨0, by simp [branch_conds], ?_⟩, ?_⟩
    · intro j hj; fin_cases j <;> simp_all [branch_conds]
    · intro j hj; fin_cases j <;>
        simp_all [branch_conds, branch_outcome, aggregate_decision]
  | true =>
    cases fd with
    | false =>
      refine ⟨⟨1, by simp [branch_conds], ?_⟩, ?_⟩
      · intro j hj; fin_cases j <;> simp_all [branch_conds]
      · intro j hj; fin_cases j <;>
          simp_all [branch_conds, branch_outcome, aggregate_decision]
    | true =>
      cases lp with
      | false =>
        refine ⟨⟨2, by simp [branch_conds], ?_⟩, ?_⟩
        · intro j hj; fin_cases j <;> simp_all [branch_conds]
        · intro j hj; fin_cases j <;>
            simp_all [branch_conds, branch_outcome, aggregate_decision]
      | true =>
        by_cases h4 : fs < t.faceMatch
        · refine ⟨⟨3, by simp [branch_conds, h4], ?_⟩, ?_⟩
          · intro j hj; fin_cases j <;> simp_all [branch_conds]
          · intro j hj; fin_cases j <;>
              simp_all [branch_conds, branch_outcome, aggregate_decision]
        · by_cases h5 : (0.8 : ℚ) ≤ fs ∧ t.livenessConfidence ≤ ls ∧ (0.7 : ℚ) ≤ dc
          · refine ⟨⟨4, by simp only [branch_conds]; exact ⟨trivial, trivial, trivial, h4, h5⟩, ?_⟩, ?_⟩
            · intro j hj
              fin_cases j <;> simp only [branch_conds] at hj <;> tauto
            · intro j hj
              fin_cases j <;> simp only [branch_conds] at hj <;>
                first
                  | tauto
                  | simp [aggregate_decision, branch_outcome, h4, h5.1, h5.2.1, h5.2.2]
          · refine ⟨⟨5, by simp only [branch_conds]; exact ⟨trivial, trivial, trivial, h4, h5⟩, ?_⟩, ?_⟩
            · intro j hj
              fin_cases j <;> simp only [branch_conds] at hj <;> tauto
            · intro j hj
              fin_cases j <;> simp only [branch_conds] at hj <;>
                first
                  | tauto
                  | simp [aggregate_decision, branch_outcome, h4, h5]

/-- Concrete instantiation of the decision table theorem: an invalid document
satisfies the first branch guard and is rejected with the first branch reason. -/
theorem aggregate_decision_table_witness :
    branch_conds ⟨0.6, 0.9⟩ ⟨false, 0, false, 0, 0, false, 0⟩ 0 ∧
    aggregate_decision ⟨0.6, 0.9⟩ ⟨false, 0, false, 0, 0, false, 0⟩ =
      ⟨"rejected", "Invalid document"⟩ := by
  refine ⟨by simp [branch_conds], ?_⟩
  exact (aggregate_decision_table ⟨0.6, 0.9⟩ ⟨false, 0, false, 0, 0, false, 0⟩).2 0
    (by simp [branch_conds])

/-- C2 counterexample: with thresholds faceMatch = 0.9 and
livenessConfidence = 0.9, an input satisfying every hypothesis of the second
boundary claim (first three checks pass, face_match_score = 0.8,
liveness_score = livenessConfidence, doc_confidence = 0.7) is rejected by the
strict face-match guard, so the claimed verified outcome does not occur. -/
theorem aggregate_decision_boundary_counterexample :
    ((⟨true, 0.7, true, 0.8, 0, true, 0.9⟩ : AggregateInput).face_match_score = 0.8 ∧
      (⟨true, 0.7, true, 0.8, 0, true, 0.9⟩ : AggregateInput).liveness_score =
        (⟨0.9, 0.9⟩ : Thresholds).livenessConfidence ∧
      (⟨true, 0.7, true, 0.8, 0, true, 0.9⟩ : AggregateInput).doc_confidence = 0.7) ∧
    aggregate_decision ⟨0.9, 0.9⟩ ⟨true, 0.7, true, 0.8, 0, true, 0.9⟩ =
      ⟨"rejected", "Face match insufficient"⟩ ∧
    aggregate_decision ⟨0.9, 0.9⟩ ⟨true, 0.7, true, 0.8, 0, true, 0.9⟩ ≠
      ⟨"verified", "All checks passed"⟩ := by
  refine ⟨⟨rfl, rfl, rfl⟩, by norm_num [aggregate_decision], ?_⟩
  norm_num [aggregate_decision]
  decide

/-- C2 (amended): when face_match_score equals the faceMatch threshold exactly
and the first three checks pass, the strict less-than guard of branch 4 does
not fire, so the outcome is not the face-match rejection; and when
additionally the face score is not below the faceMatch threshold, a score of
exactly 0.8 with liveness_score exactly at livenessConfidence and
doc_confidence exactly 0.7 reaches branch 5, whose non-strict comparisons
fire, giving the verified outcome. -/
theorem aggregate_decision_boundary (t : Thresholds) (i : AggregateInput) :
    (i.doc_valid = true → i.face_detected = true → i.liveness_passed = true →
      i.face_match_score = t.faceMatch →
      aggregate_decision t i ≠ ⟨"rejected", "Face match insufficient"⟩) ∧
    (i.doc_valid = true → i.face_detected = true → i.liveness_passed = true →
      t.faceMatch ≤ i.face_match_score →
      i.face_match_score = 0.8 → i.liveness_score = t.livenessConfidence →
      i.doc_confidence = 0.7 →
      aggregate_decision t i = ⟨"verified", "All checks passed"⟩) := by
  constructor
  · intro h1 h2 h3 h4
    simp only [aggregate_decision, h1, h2, h3, h4]
    rw [if_neg (by simp), if_neg (by simp), if_neg (by simp),
      if_neg (lt_irrefl t.faceMatch)]
    split_ifs <;> simp
  · intro h1 h2 h3 h4 h5 h6 h7
    rw [h5] at h4
    simp [aggregate_decision, h1, h2, h3, h5, h6, h7, not_lt.mpr h4]

/-- Concrete instantiation of the boundary theorem: with the default
thresholds 0.6 and 0.9, a 0.8 face score at the exact liveness and document
bounds is verified, and a face score exactly at the 0.6 threshold is not
rejected for an insufficient face match. -/
theorem aggregate_decision_boundary_witness :
    (0.6 : ℚ) ≤ 0.8 ∧
    aggregate_decision ⟨0.6, 0.9⟩ ⟨true, 0.7, true, 0.8, 0, true, 0.9⟩ =
      ⟨"verified", "All checks passed"⟩ ∧
    aggregate_decision ⟨0.6, 0.9⟩ ⟨true, 0, true, 0.6, 0, true, 0⟩ ≠
      ⟨"rejected", "Face match insufficient"⟩ :=
  ⟨by norm_num,
    (aggregate_decision_boundary ⟨0.6, 0.9⟩ ⟨true, 0.7, true, 0.8, 0, true, 0.9⟩).2
      rfl rfl rfl (by norm_num) rfl rfl rfl,
    (aggregate_decision_boundary ⟨0.6, 0.9⟩ ⟨true, 0, true, 0.6, 0, true, 0⟩).1
      rfl rfl rfl rfl⟩

/-- The document result assembled by VerificationService._process_document:
the fields read off the DocumentService result. -/
structure DocResult where
  document_valid : Bool
  document_type : String
  extracted_data : List (String × String)
  confidence : ℚ
  error : Option String

/-- The face result assembled by VerificationService._process_face_verification
(verification_service.py lines 127-184). -/
structure FaceVerifyResult where
  face_detected : Bool
  face_match_score : ℚ
  confidence : ℚ
  document_face_confidence : Option ℚ
  selfie_face_confidence : Option ℚ
  error : Option String

/-- The liveness result assembled by
VerificationService._process_liveness_detection from the LivenessService
result (liveness_service.py); indicators hold the motion, texture and blur
sub-scores when present. -/
structure LivenessResult where
  liveness_detected : Bool
  liveness_score : ℚ
  confidence : ℚ
  method : String
  indicators : Option (ℚ × ℚ × ℚ)
  reason : Option String
  error : Option String

/-- The dictionary returned by VerificationService.process_verification:
either the aggregated completed result (lines 256-264) or the failure dict of
the outer except handler (lines 74-78). Keys that a branch does not set are
modelled as none. -/
structure FinalResult where
  status : String
  document_valid : Option Bool
  face_match_score : Option ℚ
  liveness_score : Option ℚ
  decision : String
  decision_reason : Option String
  processing_time : Option ℚ
  error : Option String

/-- VerificationService._aggregate_results: extracts the key metrics from the
three component results, runs the decision ladder, and returns the completed
result dict with the placeholder processing time 2.5. -/
def aggregate_results (t : Thresholds) (d : DocResult) (f : FaceVerifyResult)
    (l : LivenessResult) : FinalResult :=
  let i : AggregateInput :=
    ⟨d.document_valid, d.confidence, f.face_detected, f.face_match_score,
      f.confidence, l.liveness_detected, l.liveness_score⟩
  let dec := aggregate_decision t i
  ⟨"completed", some i.doc_valid, some i.face_match_score, some i.liveness_score,
    dec.decision, some dec.reason, some 2.5, none⟩

/-- Outcome of the try body of process_verification: either all three
component results were produced (the extractors themselves never raise, each
catches internally), or an unexpected fault was raised outside the extractors
(for example while saving the uploaded files) and reached the outer except
handler with message e. -/
inductive OrchOutcome
  | ok (d : DocResult) (f : FaceVerifyResult) (l : LivenessResult)
  | fault (e : String)

/-- VerificationService.process_verification (lines 28-78): on the normal
path the aggregated result is returned; on an unexpected fault the except
handler returns the failed dict with only status, error and decision keys. -/
def process_verification (t : Thresholds) (o : OrchOutcome) : FinalResult :=
  match o with
  | .ok d f l => aggregate_results t d f l
  | .fault e => ⟨"failed", none, none, none, "rejected", none, none, some e⟩

/-- C4 counterexample: on the concrete fault message for an unreadable upload,
process_verification does return the failed state with decision rejected, but
the error detail is the bare exception string: there is no decision reason at
all and no processing_error prefix, so the claimed reason form does not occur. -/
theorem process_verification_fault_counterexample :
    (process_verification ⟨0.6, 0.9⟩ (.fault "disk full")).status = "failed" ∧
    (process_verification ⟨0.6, 0.9⟩ (.fault "disk full")).decision = "rejected" ∧
    (process_verification ⟨0.6, 0.9⟩ (.fault "disk full")).decision_reason = none ∧
    (process_verification ⟨0.6, 0.9⟩ (.fault "disk full")).error = some "disk full" ∧
    "disk full" ≠ "processing_error: disk full" :=
  ⟨rfl, rfl, rfl, rfl, by decide⟩

/-- C4 (amended): for every unexpected fault raised outside the extractors,
process_verification does not propagate the exception: it returns the failed
terminal state with decision rejected, carrying the bare error detail string
under the error key, with no decision reason and no processing_error prefix;
every non-fault run returns the completed state. -/
theorem process_verification_fault (t : Thresholds) (e : String) :
    process_verification t (.fault e) =
      ⟨"failed", none, none, none, "rejected", none, none, some e⟩ ∧
    ∀ d f l, (process_verification t (.ok d f l)).status = "completed" :=
  ⟨rfl, fun _ _ _ => rfl⟩

/-- The result of one face extraction (from the document image or from the
selfie video) as consumed by _process_face_verification: whether a face was
detected and with what confidence. -/
structure FaceExtractResult where
  face_detected : Bool
  confidence : ℚ
  error : Option String

/-- VerificationService._process_face_verification (lines 127-175), given the
two extraction results and the similarity score that compare_faces returns on
the two embeddings when both faces were detected. -/
def process_face_verification (docFace selfieFace : FaceExtractResult)
    (similarity : ℚ) : FaceVerifyResult :=
  if docFace.face_detected = false then
    ⟨false, 0, 0, none, none, some "No face detected in ID document"⟩
  else if selfieFace.face_detected = false then
    ⟨true, 0, docFace.confidence, none, none, some "No face detected in selfie"⟩
  else
    ⟨true, similarity,
      docFace.confidence * 0.4 + selfieFace.confidence * 0.4 + similarity * 0.2,
      some docFace.confidence, some selfieFace.confidence, none⟩

/-- C10: when a face is detected in the document image but none in the selfie
video, the face step reports face_detected true with a zero match score and
the document-face confidence; composed with a valid document, passed
liveness, and any positive faceMatch threshold, the final decision is
rejected with reason Face match insufficient, never the no-face rejection. -/
theorem selfie_face_missing_rejected_for_face_match
    (docFace selfieFace : FaceExtractResult) (similarity : ℚ)
    (d : DocResult) (l : LivenessResult) (t : Thresholds)
    (hdoc : docFace.face_detected = true) (hselfie : selfieFace.face_detected = false)
    (hvalid : d.document_valid = true) (hlive : l.liveness_detected = true)
    (hthr : 0 < t.faceMatch) :
    (process_face_verification docFace selfieFace similarity).face_detected = true ∧
    (process_face_verification docFace selfieFace similarity).face_match_score = 0 ∧
    (process_face_verification docFace selfieFace similarity).confidence =
      docFace.confidence ∧
    (process_verification t
      (.ok d (process_face_verification docFace selfieFace similarity) l)).decision =
      "rejected" ∧
    (process_verification t
      (.ok d (process_face_verification docFace selfieFace similarity) l)).decision_reason =
      some "Face match insufficient" := by
  have hp : process_face_verification docFace selfieFace similarity =
      ⟨true, 0, docFace.confidence, none, none, some "No face detected in selfie"⟩ := by
    simp [process_face_verification, hdoc, hselfie]
  refine ⟨by rw [hp], by rw [hp], by rw [hp], ?_, ?_⟩ <;>
    · rw [hp]
      simp [process_verification, aggregate_results, aggregate_decision,
        hvalid, hlive, hthr]

/-- Concrete instantiation of the missing-selfie-face theorem with the default
thresholds: the decision reason is the insufficient face match. -/
theorem selfie_face_missing_rejected_witness :
    (0 : ℚ) < 0.6 ∧
    (process_verification ⟨0.6, 0.9⟩
      (.ok ⟨true, "passport", [], 0.8, none⟩
        (process_face_verification ⟨true, 0.9, none⟩ ⟨false, 0, none⟩ 0.42)
        ⟨true, 0.95, 0.9, "passive", none, none, none⟩)).decision_reason =
      some "Face match insufficient" :=
  ⟨by norm_num,
    (selfie_face_missing_rejected_for_face_match ⟨true, 0.9, none⟩ ⟨false, 0, none⟩
      0.42 ⟨true, "passport", [], 0.8, none⟩ ⟨true, 0.95, 0.9, "passive", none, none, none⟩
      ⟨0.6, 0.9⟩ rfl rfl rfl rfl (by norm_num)).2.2.2.2⟩

/-- Measured quantities that the liveness heuristics read off frames through
OpenCV: the mean Farneback optical-flow magnitude between two grayscale
frames (liveness_service.py lines 214-220) and the variance of the Laplacian
of a grayscale frame (lines 253 and 282, the same quantity consumed by both
the texture and the blur analysis). Frames themselves stay opaque. -/
structure CV (α : Type) where
  flowMagMean : α → α → ℚ
  lapVar : α → ℚ

/-- The frame sampling loop of LivenessService._passive_liveness_detection
(lines 70-85): read at most 50 frames and keep every other one, that is the
frames at even positions among the first 50. -/
def sample_passive_frames {α : Type} (video : List α) : List α :=
  (((video.take 50).enum).filter (fun p => p.1 % 2 == 0)).map Prod.snd

/-- LivenessService._analyze_motion (lines 201-239), no-fault path: per
consecutive pair, the mean flow magnitude divided by 10 and capped at 1; the
average of these per-pair scores is band-limited in the order of the source
ladder. -/
def analyze_motion {α : Type} (cv : CV α) (frames : List α) : ℚ :=
  if frames.length < 2 then 0
  else
    let motion_scores := (frames.zip frames.tail).map
      (fun p => min (cv.flowMagMean p.1 p.2 / 10) 1)
    let avg := motion_scores.sum / (motion_scores.length : ℚ)
    if 0.1 ≤ avg ∧ avg ≤ 0.8 then avg
    else if avg < 0.1 then avg * 2
    else 0.5

/-- LivenessService._analyze_texture (lines 241-263), no-fault path:
per-frame Laplacian variance divided by 500 and capped at 1, averaged, then
floored at 0.3. -/
def analyze_texture {α : Type} (cv : CV α) (frames : List α) : ℚ :=
  if frames.length < 3 then 0
  else
    let texture_scores := frames.map (fun f => min (cv.lapVar f / 500) 1)
    max (texture_scores.sum / (texture_scores.length : ℚ)) 0.3

/-- LivenessService._analyze_blur (lines 269-297), no-fault path: per-frame
Laplacian variance divided by 100 and capped at 1, averaged, then
band-limited. -/
def analyze_blur {α : Type} (cv : CV α) (frames : List α) : ℚ :=
  if frames.length < 1 then 0
  else
    let blur_scores := frames.map (fun f => min (cv.lapVar f / 100) 1)
    let avg := blur_scores.sum / (blur_scores.length : ℚ)
    if 0.3 ≤ avg ∧ avg ≤ 0.9 then avg
    else if avg < 0.3 then avg * 1.5
    else 0.8

/-- LivenessService._passive_liveness_detection (lines 60-123), no-fault
path: sample frames, fail when fewer than 3 were kept, otherwise combine the
three sub-scores with weights 0.4, 0.4, 0.2 and pass at 0.6. -/
def passive_liveness_detection {α : Type} (cv : CV α) (video : List α) :
    LivenessResult :=
  let frames := sample_passive_frames video
  if frames.length < 3 then
    ⟨false, 0, 0, "passive", none, some "Insufficient frames", none⟩
  else
    let motion_score := analyze_motion cv frames
    let texture_score := analyze_texture cv frames
    let blur_score := analyze_blur cv frames
    let liveness_score := motion_score * 0.4 + texture_score * 0.4 + blur_score * 0.2
    let confidence := if 0.6 ≤ liveness_score then min (liveness_score * 1.2) 1
      else liveness_score * 0.8
    ⟨decide (0.6 ≤ liveness_score), liveness_score, confidence, "passive",
      some (motion_score, texture_score, blur_score), none, none⟩

/-- A trivial frame-measurement assignment on opaque unit frames, used to
instantiate the liveness theorems on concrete inputs. -/
def cv0 : CV Unit := ⟨fun _ _ => 0, fun _ => 0⟩

/-- C5 counterexample: a 2-frame passive video yields a single sampled frame,
so the insufficient-frames failure fires with passed false and score 0 as
claimed, but the reason string of the code is Insufficient frames, not the
claimed snake case insufficient_frames. -/
theorem passive_insufficient_frames_counterexample :
    (passive_liveness_detection cv0 [(), ()]).liveness_detected = false ∧
    (passive_liveness_detection cv0 [(), ()]).liveness_score = 0 ∧
    (passive_liveness_detection cv0 [(), ()]).reason = some "Insufficient frames" ∧
    (passive_liveness_detection cv0 [(), ()]).reason ≠ some "insufficient_frames" :=
  ⟨rfl, rfl, rfl, by decide⟩

/-- C5 (amended): for every passive-liveness video yielding fewer than 3
sampled frames, in particular a 2-frame video, the assessment returns passed
false, score 0, and reason Insufficient frames (with a capital letter and a
space, not insufficient_frames), and does not raise. -/
theorem passive_insufficient_frames {α : Type} (cv : CV α) (video : List α)
    (h : (sample_passive_frames video).length < 3) :
    passive_liveness_detection cv video =
      ⟨false, 0, 0, "passive", none, some "Insufficient frames", none⟩ := by
  simp [passive_liveness_detection, h]

/-- Concrete instantiation of the insufficient-frames theorem on a 2-frame
video, which yields exactly one sampled frame. -/
theorem passive_insufficient_frames_witness :
    (sample_passive_frames [(), ()]).length < 3 ∧
    passive_liveness_detection cv0 [(), ()] =
      ⟨false, 0, 0, "passive", none, some "Insufficient frames", none⟩ :=
  ⟨by decide, passive_insufficient_frames cv0 [(), ()] (by decide)⟩

/-- The motion sub-score in the words of the specification, stated
independently of analyze_motion: mean of the per-pair flow magnitudes
normalized by dividing by 10 and capped at 1, then band-limited with the
cases in the order of the claim: averages below 0.1 are doubled, averages up
to 0.8 pass through unchanged, larger averages are replaced by 0.5. -/
def motion_score_claim {α : Type} (cv : CV α) (frames : List α) : ℚ :=
  let caps := (frames.zip frames.tail).map
    (fun p => min (cv.flowMagMean p.1 p.2 / 10) 1)
  let avg := caps.sum / (caps.length : ℚ)
  if avg < 0.1 then avg * 2
  else if avg ≤ 0.8 then avg
  else 0.5

lemma band_comm (x : ℚ) :
    (if 0.1 ≤ x ∧ x ≤ 0.8 then x else if x < 0.1 then x * 2 else (0.5 : ℚ)) =
    (if x < 0.1 then x * 2 else if x ≤ 0.8 then x else (0.5 : ℚ)) := by
  rcases lt_or_le x 0.1 with h1 | h1
  · rw [if_neg (fun hc => absurd h1 (not_lt.mpr hc.1)), if_pos h1, if_pos h1]
  · rcases le_or_lt x 0.8 with h2 | h2
    · rw [if_pos ⟨h1, h2⟩, if_neg (not_lt.mpr h1), if_pos h2]
    · rw [if_neg (fun hc => absurd h2 (not_lt.mpr hc.2)), if_neg (not_lt.mpr h1),
        if_neg (not_lt.mpr h1), if_neg (not_le.mpr h2)]

/-- C6: for every passive-liveness run with at least 3 sampled frames, the
liveness score equals 0.4 times the claimed motion sub-score plus 0.4 times
the texture sub-score plus 0.2 times the blur sub-score, and passed holds
exactly when the score is at least 0.6. -/
theorem passive_liveness_score_formula {α : Type} (cv : CV α) (video : List α)
    (h : 3 ≤ (sample_passive_frames video).length) :
    (passive_liveness_detection cv video).liveness_score =
      0.4 * motion_score_claim cv (sample_passive_frames video) +
        0.4 * analyze_texture cv (sample_passive_frames video) +
        0.2 * analyze_blur cv (sample_passive_frames video) ∧
    ((passive_liveness_detection cv video).liveness_detected = true ↔
      0.6 ≤ (passive_liveness_detection cv video).liveness_score) := by
  have hnot : ¬ (sample_passive_frames video).length < 3 := not_lt.mpr h
  have hmot : analyze_motion cv (sample_passive_frames video) =
      motion_score_claim cv (sample_passive_frames video) := by
    rw [analyze_motion, motion_score_claim, if_neg (by omega)]
    exact band_comm _
  constructor
  · simp only [passive_liveness_detection, hnot, if_false]
    rw [hmot]
    ring
  · simp [passive_liveness_detection, hnot]

/-- A constant frame-measurement assignment giving nonzero motion and
Laplacian variance, used to instantiate the passive score theorem. -/
def cv1 : CV Unit := ⟨fun _ _ => 2, fun _ => 250⟩

/-- Concrete instantiation of the passive score formula theorem on a 6-frame
video, which yields exactly 3 sampled frames. -/
theorem passive_liveness_score_formula_witness :
    3 ≤ (sample_passive_frames [(), (), (), (), (), ()]).length ∧
    ((passive_liveness_detection cv1 [(), (), (), (), (), ()]).liveness_score =
      0.4 * motion_score_claim cv1 (sample_passive_frames [(), (), (), (), (), ()]) +
        0.4 * analyze_texture cv1 (sample_passive_frames [(), (), (), (), (), ()]) +
        0.2 * analyze_blur cv1 (sample_passive_frames [(), (), (), (), (), ()]) ∧
    ((passive_liveness_detection cv1 [(), (), (), (), (), ()]).liveness_detected = true ↔
      0.6 ≤ (passive_liveness_detection cv1 [(), (), (), (), (), ()]).liveness_score)) :=
  ⟨by decide, passive_liveness_score_formula cv1 [(), (), (), (), (), ()] (by decide)⟩

/-- An image as read by cv2.imread, reduced to the shape data the document
pipeline consumes: image.shape[:2] gives height and width. -/
structure PImage where
  width : ℕ
  height : ℕ

/-- The aspect ratio width / height computed by
DocumentService._detect_document_type (document_service.py line 100). -/
def aspect (img : PImage) : ℚ := (img.width : ℚ) / (img.height : ℚ)

/-- DocumentService._detect_document_type (lines 92-110): the ordered
aspect-ratio ladder classifying the document type; the region metadata dict
is dropped since no claim consumes it. -/
def detect_document_type (img : PImage) : String :=
  if 1.4 ≤ aspect img ∧ aspect img ≤ 1.7 then "passport"
  else if 0.6 ≤ aspect img ∧ aspect img ≤ 0.8 then "national_id"
  else if 1.5 ≤ aspect img ∧ aspect img ≤ 1.8 then "drivers_license"
  else "unknown"

/-- C9 counterexample: an image of width 16 and height 10 has aspect ratio
1.6, which lies in the claimed drivers_license interval from 1.5 to 1.8, yet
the ladder classifies it as passport because the passport interval is tested
first. -/
theorem detect_document_type_counterexample :
    (1.5 ≤ aspect ⟨16, 10⟩ ∧ aspect ⟨16, 10⟩ ≤ 1.8) ∧
    detect_document_type ⟨16, 10⟩ = "passport" ∧
    detect_document_type ⟨16, 10⟩ ≠ "drivers_license" := by
  refine ⟨⟨by norm_num [aspect], by norm_num [aspect]⟩, ?_, ?_⟩ <;>
    · norm_num [detect_document_type, aspect]
      try decide

/-- C9 (amended): the type ladder is evaluated in order, first match wins:
ratios in the closed interval from 1.4 to 1.7 yield passport, ratios between
0.6 and 0.8 yield national_id, and of the claimed drivers_license interval
only the part strictly above 1.7 and up to 1.8 yields drivers_license; every
ratio outside these three regions yields unknown. -/
theorem detect_document_type_intervals (img : PImage) :
    (1.4 ≤ aspect img ∧ aspect img ≤ 1.7 → detect_document_type img = "passport") ∧
    (0.6 ≤ aspect img ∧ aspect img ≤ 0.8 → detect_document_type img = "national_id") ∧
    (1.7 < aspect img ∧ aspect img ≤ 1.8 →
      detect_document_type img = "drivers_license") ∧
    (¬ (1.4 ≤ aspect img ∧ aspect img ≤ 1.7) →
      ¬ (0.6 ≤ aspect img ∧ aspect img ≤ 0.8) →
      ¬ (1.7 < aspect img ∧ aspect img ≤ 1.8) →
      detect_document_type img = "unknown") := by
  refine ⟨?_, ?_, ?_, ?_⟩
  · intro h
    rw [detect_document_type, if_pos h]
  · intro h
    rw [detect_document_type, if_neg (fun hc => by linarith [h.2, hc.1]), if_pos h]
  · intro h
    rw [detect_document_type, if_neg (fun hc => by linarith [h.1, hc.2]),
      if_neg (fun hc => by linarith [h.1, hc.2]),
      if_pos ⟨by linarith [h.1], h.2⟩]
  · intro h1 h2 h3
    have h3q : ¬ (1.5 ≤ aspect img ∧ aspect img ≤ 1.8) := by
      intro hc
      rcases le_or_lt (aspect img) 1.7 with hle | hgt
      · exact h1 ⟨by linarith [hc.1], hle⟩
      · exact h3 ⟨hgt, hc.2⟩
    rw [detect_document_type, if_neg h1, if_neg h2, if_neg h3q]

/-- Concrete instantiation of the interval theorem: a 7 by 4 image has aspect
ratio 1.75, strictly above 1.7 and at most 1.8, and is classified as a
drivers license. -/
theorem detect_document_type_intervals_witness :
    (1.7 < aspect ⟨7, 4⟩ ∧ aspect ⟨7, 4⟩ ≤ 1.8) ∧
    detect_document_type ⟨7, 4⟩ = "drivers_license" :=
  ⟨⟨by norm_num [aspect], by norm_num [aspect]⟩,
    (detect_document_type_intervals ⟨7, 4⟩).2.2.1
      ⟨by norm_num [aspect], by norm_num [aspect]⟩⟩

/-- DocumentService._validate_document_data required-field table
(lines 247-250). -/
def required_fields (doc_type : String) : List String :=
  if doc_type = "passport" then ["passport_number", "full_name", "date_of_birth"]
  else if doc_type = "national_id" ∨ doc_type = "drivers_license" then
    ["id_number", "full_name", "date_of_birth"]
  else []

/-- A field counts as present when the key is in the data dict and its value
is truthy, that is a non-empty string (line 253). -/
def field_present (data : List (String × String)) (f : String) : Bool :=
  match data.lookup f with
  | some v => v != ""
  | none => false

/-- The regex check of line 260: one ASCII capital letter followed by exactly
eight ASCII digits. -/
def passport_number_format (s : String) : Bool :=
  match s.toList with
  | [] => false
  | c :: rest =>
    decide ('A' ≤ c ∧ c ≤ 'Z') && rest.length == 8 &&
      rest.all (fun d => decide ('0' ≤ d ∧ d ≤ '9'))

/-- The format score accumulation of lines 257-266: 0.3 when a present
passport_number matches its format, plus 0.3 when a present id_number has at
least 6 characters. -/
def format_score (data : List (String × String)) : ℚ :=
  (match data.lookup "passport_number" with
    | some v => if passport_number_format v then (0.3 : ℚ) else 0
    | none => 0) +
  (match data.lookup "id_number" with
    | some v => if 6 ≤ v.length then (0.3 : ℚ) else 0
    | none => 0)

/-- DocumentService._validate_document_data (lines 237-274): field
completeness times 0.7 plus format score times 0.3; valid at confidence 0.5
or more. -/
def validate_document_data (data : List (String × String)) (doc_type : String) :
    Bool × ℚ :=
  let required := required_fields doc_type
  let present_fields := (required.filter (fun f => field_present data f)).length
  let field_completeness : ℚ :=
    if required.isEmpty then 0 else (present_fields : ℚ) / (required.length : ℚ)
  let confidence := field_completeness * 0.7 + format_score data * 0.3
  (decide (0.5 ≤ confidence), confidence)

/-- C8: for every parsed field map and recognized document type, the validity
confidence equals 0.7 times the fraction of required fields present and
non-empty plus 0.3 times the format score of the primary identifier checks,
and the document is valid exactly when the confidence is at least 0.5. -/
theorem validate_document_confidence (data : List (String × String))
    (doc_type : String)
    (h : doc_type = "passport" ∨ doc_type = "national_id" ∨
      doc_type = "drivers_license") :
    (validate_document_data data doc_type).2 =
      0.7 * ((((required_fields doc_type).filter
          (fun f => field_present data f)).length : ℚ) /
        ((required_fields doc_type).length : ℚ)) +
      0.3 * format_score data ∧
    ((validate_document_data data doc_type).1 = true ↔
      0.5 ≤ (validate_document_data data doc_type).2) := by
  have hne : (required_fields doc_type).isEmpty = false := by
    rcases h with h | h | h <;> simp [required_fields, h]
  constructor
  · simp only [validate_document_data, hne, Bool.false_eq_true, if_false]
    ring
  · simp [validate_document_data]

/-- A parsed passport field map as DocumentService._parse_passport_data
produces from the sample OCR text. -/
def passport_sample_fields : List (String × String) :=
  [("passport_number", "P12345678"), ("surname", "DOE"),
    ("given_names", "JOHN MICHAEL"), ("date_of_birth", "15 JAN 1990"),
    ("expiration_date", "01 JAN 2030"), ("full_name", "JOHN MICHAEL DOE")]

/-- Concrete instantiation of the confidence theorem on the sample passport
fields: all three required fields are present and the passport number matches
its format, so the confidence is 0.79 and the document is valid. -/
theorem validate_document_confidence_witness :
    ("passport" = "passport" ∨ "passport" = "national_id" ∨
      "passport" = "drivers_license") ∧
    ((validate_document_data passport_sample_fields "passport").2 =
      0.7 * ((((required_fields "passport").filter
          (fun f => field_present passport_sample_fields f)).length : ℚ) /
        ((required_fields "passport").length : ℚ)) +
      0.3 * format_score passport_sample_fields ∧
    ((validate_document_data passport_sample_fields "passport").1 = true ↔
      0.5 ≤ (validate_document_data passport_sample_fields "passport").2)) :=
  ⟨Or.inl rfl,
    validate_document_confidence passport_sample_fields "passport" (Or.inl rfl)⟩

/-- The constant text returned by the placeholder OCR step
DocumentService._extract_text_with_ocr (lines 112-146). Its exact content is
irrelevant to the claims checked here, so only its role as the input of the
parse step is kept. -/
def sample_ocr_text : String := "PASSPORT SAMPLE TEXT"

/-- DocumentService.process_document (lines 22-72). The parse step
(_parse_document_data) is passed in abstractly: it is a total function of the
extracted text and the detected type, and every sub-step below the image read
catches its own exceptions, so the only failure that reaches the outer
handler is a failed read, modelled by the error case of the argument. The
raw_text and region keys of the success dict are not modelled. -/
def process_document (parse : String → String → List (String × String))
    (img : Except String PImage) : DocResult :=
  match img with
  | .error e => ⟨false, "unknown", [], 0, some e⟩
  | .ok i =>
    let doc_type := detect_document_type i
    let parsed := parse sample_ocr_text doc_type
    let vc := validate_document_data parsed doc_type
    ⟨vc.1, doc_type, parsed, vc.2, none⟩

/-- C7: process_document never raises: for every parse step and every failed
image read it returns the failure-safe signal with type unknown, valid false,
confidence 0, empty fields and the error note attached, and every successful
read completes without an error note. -/
theorem process_document_failure_safe
    (parse : String → String → List (String × String)) (e : String) :
    process_document parse (.error e) = ⟨false, "unknown", [], 0, some e⟩ ∧
    ∀ img, (process_document parse (.ok img)).error = none :=
  ⟨rfl, fun _ => rfl⟩

/-- Dot product of two equal-length float vectors, as np.dot computes it on
the zipped coordinates. -/
def dotP (a b : List ℝ) : ℝ := (List.zipWith (fun x y => x * y) a b).sum

/-- Euclidean norm of a float vector, np.linalg.norm. -/
noncomputable def l2norm (v : List ℝ) : ℝ := Real.sqrt (dotP v v)

/-- Coordinatewise division by the Euclidean norm (face_service.py lines
264-265). -/
noncomputable def l2normalize (v : List ℝ) : List ℝ :=
  v.map (fun x => x / l2norm v)

/-- FaceService.compare_faces (face_service.py lines 244-277): returns 0 when
either embedding is absent or empty or the dimensions differ, otherwise the
dot product of the two normalized embeddings clamped to the unit interval by
max and min (lines 268-271). -/
noncomputable def compare_faces (e1 e2 : Option (List ℝ)) : ℝ :=
  match e1, e2 with
  | some a, some b =>
    if a.length = 0 ∨ b.length = 0 ∨ a.length ≠ b.length then 0
    else max 0 (min 1 (dotP (l2normalize a) (l2normalize b)))
  | _, _ => 0

lemma dotP_comm (a b : List ℝ) : dotP a b = dotP b a := by
  unfold dotP
  rw [List.zipWith_comm_of_comm]
  exact mul_comm

/-- C3: compare_faces is symmetric in its two embeddings; it returns 0
whenever either embedding is absent or empty or the two lengths differ; and
on present, non-empty, equal-length embeddings its value is clamped to the
interval from 0 to 1. -/
theorem compare_faces_properties (e1 e2 : Option (List ℝ)) :
    compare_faces e1 e2 = compare_faces e2 e1 ∧
    (∀ a b, e1 = some a → e2 = some b →
      a = [] ∨ b = [] ∨ a.length ≠ b.length → compare_faces e1 e2 = 0) ∧
    (e1 = none ∨ e2 = none → compare_faces e1 e2 = 0) ∧
    (∀ a b, e1 = some a → e2 = some b → a ≠ [] → b ≠ [] → a.length = b.length →
      0 ≤ compare_faces e1 e2 ∧ compare_faces e1 e2 ≤ 1) := by
  refine ⟨?_, ?_, ?_, ?_⟩
  · cases e1 with
    | none => cases e2 <;> rfl
    | some a =>
      cases e2 with
      | none => rfl
      | some b =>
        by_cases hc : a.length = 0 ∨ b.length = 0 ∨ a.length ≠ b.length
        · have hcs : b.length = 0 ∨ a.length = 0 ∨ b.length ≠ a.length := by tauto
          simp only [compare_faces]
          rw [if_pos hc, if_pos hcs]
        · have hcs : ¬ (b.length = 0 ∨ a.length = 0 ∨ b.length ≠ a.length) := by
            tauto
          simp only [compare_faces]
          rw [if_neg hc, if_neg hcs, dotP_comm]
  · rintro a b rfl rfl hor
    have hc : a.length = 0 ∨ b.length = 0 ∨ a.length ≠ b.length := by
      rcases hor with h | h | h
      · exact Or.inl (by simp [h])
      · exact Or.inr (Or.inl (by simp [h]))
      · exact Or.inr (Or.inr h)
    simp only [compare_faces]
    rw [if_pos hc]
  · rintro (rfl | rfl)
    · rfl
    · cases e1 <;> rfl
  · rintro a b rfl rfl ha hb hlen
    have hc : ¬ (a.length = 0 ∨ b.length = 0 ∨ a.length ≠ b.length) := by
      push_neg
      exact ⟨by simpa using ha, by simpa using hb, hlen⟩
    simp only [compare_faces]
    rw [if_neg hc]
    constructor
    · exact le_max_left 0 _
    · exact max_le zero_le_one (min_le_left 1 _)

/-- Concrete instantiation of the comparison properties: two present
one-dimensional embeddings give a clamped similarity, and an empty first
embedding gives similarity 0. -/
theorem compare_faces_properties_witness :
    ([(1 : ℝ)] ≠ [] ∧ [(2 : ℝ)] ≠ [] ∧ [(1 : ℝ)].length = [(2 : ℝ)].length) ∧
    (0 ≤ compare_faces (some [(1 : ℝ)]) (some [(2 : ℝ)]) ∧
      compare_faces (some [(1 : ℝ)]) (some [(2 : ℝ)]) ≤ 1) ∧
    compare_faces (some ([] : List ℝ)) (some [(2 : ℝ)]) = 0 :=
  ⟨⟨by simp, by simp, rfl⟩,
    (compare_faces_properties (some [(1 : ℝ)]) (some [(2 : ℝ)])).2.2.2 [1] [2]
      rfl rfl (by simp) (by simp) rfl,
    (compare_faces_properties (some ([] : List ℝ)) (some [(2 : ℝ)])).2.1 [] [2]
      rfl rfl (Or.inl rfl)⟩

end KYC
